import Mathlib

/-!
# sqlpassthru: the `query` handler of `main.go`

A shallow embedding of the HTTP handler `query` (main.go, lines 21-118) and of
the library behaviour it relies on: `strconv.Atoi`, `encoding/csv.Writer` on top
of a 4096 byte `bufio.Writer` over a `bytes.Buffer`, `http.ResponseWriter`, and
the `pgx` connection and row cursor.

Go strings are represented by Lean strings (valid UTF-8); where the program
counts or moves bytes the UTF-8 encoding of the string is used.  The Go `int`
is 64 bits wide.
-/

namespace SqlPassthru

/-! ## Bytes and strings -/

abbrev Bytes := List UInt8

/-- The bytes of a Go string. -/
def utf8Bytes (s : String) : Bytes :=
  s.data.flatMap String.utf8EncodeChar

/-- The double quote character. -/
def dquote : Char := Char.ofNat 34

/-- The carriage return character. -/
def cr : Char := Char.ofNat 13

/-- The line feed character. -/
def lf : Char := Char.ofNat 10

/-- The comma, the field delimiter `csv.NewWriter` installs. -/
def comma : Char := Char.ofNat 44

/-- Decimal rendering of a natural number: `strconv.Itoa` on a non-negative int. -/
def Itoa (n : Nat) : String := Nat.repr n

/-- Decimal rendering of a signed integer: `strconv.FormatInt(i, 10)`. -/
def FormatInt (i : Int) : String :=
  if i < 0 then "-" ++ Nat.repr i.natAbs else Nat.repr i.natAbs

/-! ## strconv.Atoi (64 bit int) -/

/-- The two error causes of package strconv: `ErrSyntax` and `ErrRange`. -/
inductive NumError where
  | syn
  | rng
deriving DecidableEq

/-- Digit loop of `strconv.ParseUint(s, 10, 0)`: `n` is the value so far, the
list holds the remaining bytes.  `cutoff = maxUint64/10 + 1`, `maxVal = 2^64 - 1`;
the loop stops at the first overflow or at the first byte that is not a digit. -/
def parseUintLoop : List Nat → Nat → Nat × Option NumError
  | [], n => (n, none)
  | c :: cs, n =>
    if 48 ≤ c ∧ c ≤ 57 then
      let d := c - 48
      if n ≥ (2 ^ 64 - 1) / 10 + 1 then (2 ^ 64 - 1, some NumError.rng)
      else
        let n10 := n * 10 % 2 ^ 64
        let n1 := (n10 + d) % 2 ^ 64
        if n1 < n10 ∨ n1 > 2 ^ 64 - 1 then (2 ^ 64 - 1, some NumError.rng)
        else parseUintLoop cs n1
    else (0, some NumError.syn)

/-- Go's `strconv.ParseUint(s, 10, 0)` on the bytes of `s`. -/
def ParseUint (s : List Nat) : Nat × Option NumError :=
  if s = [] then (0, some NumError.syn) else parseUintLoop s 0

/-- Two's complement reading of an integer as an `int64`. -/
def wrap64 (i : Int) : Int := (i + 2 ^ 63) % 2 ^ 64 - 2 ^ 63

/-- Go's `strconv.ParseInt(s, 10, 0)` on the bytes of `s`: a sign, then
`ParseUint`; a value out of range is clamped and reported with `ErrRange`. -/
def ParseInt (s : List Nat) : Int × Option NumError :=
  match s with
  | [] => (0, some NumError.syn)
  | c :: rest =>
    let neg : Bool := c = 45
    let s1 := if c = 43 ∨ c = 45 then rest else s
    match ParseUint s1 with
    | (_, some NumError.syn) => (0, some NumError.syn)
    | (un, _) =>
      let cutoff : Nat := 2 ^ 63
      if neg = false ∧ un ≥ cutoff then (((cutoff - 1 : Nat) : Int), some NumError.rng)
      else if neg = true ∧ un > cutoff then (-(cutoff : Int), some NumError.rng)
      else
        let n := wrap64 (un : Int)
        (if neg then wrap64 (-n) else n, none)

/-- Fast path loop of `strconv.Atoi`: `ch -= '0'` on a byte, more than 9 is a
syntax error (`none`). -/
def atoiDigits : List Nat → Nat → Option Nat
  | [], n => some n
  | ch :: cs, n =>
    let ch := (ch + 256 - 48) % 256
    if ch > 9 then none else atoiDigits cs (n * 10 + ch)

/-- Go's `strconv.Atoi(s)`: the value and the error (`none` is `nil`).  Strings
of 1 to 18 bytes take the fast path, all others go through `ParseInt`. -/
def Atoi (s : String) : Int × Option NumError :=
  let bs := (utf8Bytes s).map UInt8.toNat
  let sLen := bs.length
  if 0 < sLen ∧ sLen < 19 then
    match bs with
    | [] => (0, some NumError.syn)
    | s0 :: rest =>
      let digits := if s0 = 45 ∨ s0 = 43 then rest else bs
      if (s0 = 45 ∨ s0 = 43) ∧ digits.length < 1 then (0, some NumError.syn)
      else
        match atoiDigits digits 0 with
        | none => (0, some NumError.syn)
        | some n => (if s0 = 45 then -(n : Int) else (n : Int), none)
  else ParseInt bs

/-! ## HTTP request and response writer -/

/-- An `http.Header`: canonical key to list of values. -/
abbrev Header := List (String × List String)

/-- The method `Header.Get`: first value of the key, or the empty string. -/
def headerGet (h : Header) (key : String) : String :=
  match h.lookup key with
  | some (v :: _) => v
  | _ => ""

/-- The method `Header.Set`: the key now holds exactly `value`. -/
def headerSet : Header → String → String → Header
  | [], key, value => [(key, [value])]
  | (k, vs) :: h, key, value =>
    if k = key then (key, [value]) :: h else (k, vs) :: headerSet h key value

/-- The method `Header.Add`: `value` is appended to the values of the key. -/
def headerAdd : Header → String → String → Header
  | [], key, value => [(key, [value])]
  | (k, vs) :: h, key, value =>
    if k = key then (k, vs ++ [value]) :: h else (k, vs) :: headerAdd h key value

/-- The part of an `*http.Request` the handler reads.  `Body = none` stands
for a body whose `ioutil.ReadAll` fails. -/
structure Request where
  Method : String
  Header : Header
  Body : Option String

/-- An `http.ResponseWriter`: the header map the handler edits, and what has
been sent.  Once the head is committed (`wroteHeader`) the status and the
headers of the response are `status` and `sentHeader`; later edits of the map
reach nobody. -/
structure ResponseWriter where
  header : Header
  wroteHeader : Bool
  status : Nat
  sentHeader : Header
  body : Bytes
deriving DecidableEq

/-- A fresh response writer. -/
def ResponseWriter.new : ResponseWriter :=
  { header := [], wroteHeader := false, status := 0, sentHeader := [], body := [] }

/-- The call `w.Header().Set(key, value)`. -/
def ResponseWriter.Set (w : ResponseWriter) (key value : String) : ResponseWriter :=
  { w with header := headerSet w.header key value }

/-- The call `w.Header().Add(key, value)`. -/
def ResponseWriter.Add (w : ResponseWriter) (key value : String) : ResponseWriter :=
  { w with header := headerAdd w.header key value }

/-- The call `w.WriteHeader(code)`: commits the head with the header map as it
is now; a second call changes nothing. -/
def ResponseWriter.WriteHeader (w : ResponseWriter) (code : Nat) : ResponseWriter :=
  if w.wroteHeader then w
  else { w with wroteHeader := true, status := code, sentHeader := w.header }

/-- The call `w.Write(p)`: commits the head with status 200 if it is not yet
committed, then sends the bytes. -/
def ResponseWriter.Write (w : ResponseWriter) (p : Bytes) : ResponseWriter :=
  let w1 := w.WriteHeader 200
  { w1 with body := w1.body ++ p }

def StatusOK : Nat := 200
def StatusPartialContent : Nat := 206
def StatusBadRequest : Nat := 400
def StatusMethodNotAllowed : Nat := 405
def StatusUnsupportedMediaType : Nat := 415
def StatusInternalServerError : Nat := 500

/-! ## encoding/csv on bufio on bytes.Buffer -/

/-- Go's `unicode.IsSpace`: the Latin-1 spaces (tab to carriage return, space,
U+0085, U+00A0) and the code points of the White_Space table. -/
def isSpace (r : Char) : Bool :=
  let n := r.toNat
  (9 ≤ n ∧ n ≤ 13) ∨ n = 32 ∨ n = 133 ∨ n = 160 ∨ n = 5760 ∨
    (8192 ≤ n ∧ n ≤ 8202) ∨ n = 8232 ∨ n = 8233 ∨ n = 8239 ∨
    n = 8287 ∨ n = 12288

/-- The method `fieldNeedsQuotes` of `csv.Writer` with `Comma = ','`: a field
is quoted when it is backslash-dot, holds the delimiter, a quote, a carriage
return or a line feed, or starts with a space character. -/
def fieldNeedsQuotes (field : String) : Bool :=
  if field = "" then false
  else if field = String.mk [Char.ofNat 92, Char.ofNat 46] ∨ field.data.contains comma ∨
      field.data.any (fun c => c = dquote ∨ c = cr ∨ c = lf) then true
  else
    match field.data with
    | [] => false
    | r1 :: _ => isSpace r1

/-- What `csv.Writer.Write` emits for one field (`UseCRLF` is false): the
field itself, or the field between quotes with every quote doubled. -/
def encodeField (field : String) : String :=
  if fieldNeedsQuotes field then
    String.mk ([dquote] ++ field.data.flatMap (fun c => if c = dquote then [dquote, dquote] else [c])
      ++ [dquote])
  else field

/-- What `csv.Writer.Write(record)` emits: the encoded fields with commas
between them and a line feed at the end. -/
def csvRecord (record : List String) : String :=
  String.intercalate (String.singleton comma) (record.map encodeField) ++ String.singleton lf

/-- A `csv.Writer` over a `bytes.Buffer`: `buf` is the content of the buffer
(what `buf.Len()` measures and `buf.WriteTo` sends), `pend` the bytes still
held by the writer's 4096 byte `bufio.Writer`. -/
structure CsvWriter where
  buf : Bytes
  pend : Bytes
deriving DecidableEq

/-- The result of `csv.NewWriter(new(bytes.Buffer))`. -/
def CsvWriter.new : CsvWriter := { buf := [], pend := [] }

/-- One byte through the `bufio.Writer` (`WriteByte`): a full buffer is flushed
to the `bytes.Buffer` first.  `WriteString` copies what fits, flushes and goes
on while more is left than fits, which leaves the same state as writing its
bytes one by one.  (Newer Go releases hand a string that does not fit an empty
buffer to the `bytes.Buffer` in one piece; the state after `Flush` is the same.) -/
def CsvWriter.writeByte (w : CsvWriter) (b : UInt8) : CsvWriter :=
  if w.pend.length ≥ 4096 then { buf := w.buf ++ w.pend, pend := [b] }
  else { buf := w.buf, pend := w.pend ++ [b] }

/-- The call `csvWriter.Write(record)`.  With the default delimiter and a
`bytes.Buffer` underneath it returns no error. -/
def CsvWriter.Write (w : CsvWriter) (record : List String) : CsvWriter :=
  (utf8Bytes (csvRecord record)).foldl CsvWriter.writeByte w

/-- The call `csvWriter.Flush()`. -/
def CsvWriter.Flush (w : CsvWriter) : CsvWriter :=
  { buf := w.buf ++ w.pend, pend := [] }

/-- The call `buf.Len()`, as a Go int. -/
def CsvWriter.Len (w : CsvWriter) : Int := (w.buf.length : Int)

/-- The call `buf.WriteTo(w)`: an empty buffer makes no `Write` call. -/
def bufWriteTo (buf : Bytes) (w : ResponseWriter) : ResponseWriter :=
  if buf.length > 0 then w.Write buf else w

/-! ## The database collaborator (pgx) -/

/-- A value as `rows.Values()` returns it in an `interface{}`: `nil` for SQL
NULL, a string, an integer, a bool, or a value of any other Go type, which
carries its `%v` rendering. -/
inductive Value where
  | null
  | text (s : String)
  | int (i : Int)
  | bool (b : Bool)
  | other (shown : String)
deriving DecidableEq

/-- The call `fmt.Sprintf("%v", v)`. -/
def sprintV : Value → String
  | Value.null => "<nil>"
  | Value.text s => s
  | Value.int i => FormatInt i
  | Value.bool b => if b then "true" else "false"
  | Value.other shown => shown

/-- A `pgproto3.FieldDescription`, as far as the handler reads it. -/
structure FieldDescription where
  Name : String
  DataTypeOID : Nat
deriving DecidableEq

/-- A `pgconn.CommandTag` through the four methods the handler calls. -/
structure CommandTag where
  Insert : Bool
  Update : Bool
  Delete : Bool
  RowsAffected : Int
deriving DecidableEq

/-- The tag a cursor holds while it is still open: the empty tag. -/
def CommandTag.empty : CommandTag :=
  { Insert := false, Update := false, Delete := false, RowsAffected := 0 }

/-- The `pgx.Rows` a successful `conn.Query` returns: the field descriptions,
the rows the cursor yields in order (`none` is a row whose `Values()` returns
an error), and the command tag the server sends when the cursor is closed. -/
structure Rows where
  fields : List FieldDescription
  data : List (Option (List Value))
  tag : CommandTag

/-- A `*pgx.Conn`: `Query` gives rows or an error text, `DataTypeForOID` the
name of a data type (`none` when `ok` is false). -/
structure Conn where
  Query : String → Except String Rows
  DataTypeForOID : Nat → Option String

/-- The database behind `databaseUrl`: `pgx.Connect` gives a connection or fails. -/
structure Database where
  Connect : Option Conn

/-! ## The handler `query` -/

def defaultMaxResponseSize : Int := 2 ^ 20

/-- Lines 32-36: the size ceiling the row loop and the finalization use.
`maxResponseSize` starts as the default and is replaced by the value `Atoi`
returned exactly when `Atoi` returned an error (`err != nil`). -/
def maxResponseSize (req : Request) : Int :=
  let r := Atoi (headerGet req.Header "Max-Content-Length")
  if r.2 ≠ none then r.1 else defaultMaxResponseSize

/-- Lines 63-73: the column names and the column type names, or `none` when
`DataTypeForOID` does not know the type of some field. -/
def columns (conn : Conn) : List FieldDescription → Option (List String × List String)
  | [] => some ([], [])
  | field :: rest =>
    match conn.DataTypeForOID field.DataTypeOID with
    | none => none
    | some name =>
      match columns conn rest with
      | none => none
      | some (colNames, colTypes) => some (field.Name :: colNames, name :: colTypes)

/-- Lines 90-93: `records := make([]string, len(fields))`, then
`records[i] = fmt.Sprintf("%v", v)` for every value of the row.  (`Values()`
returns one value per field description, so the index stays in range.) -/
def records (nFields : Nat) (values : List Value) : List String :=
  values.enum.foldl (fun recs iv => recs.set iv.1 (sprintV iv.2)) (List.replicate nFields "")

/-- How the row loop of lines 84-104 ends. -/
inductive LoopExit where
  /-- The call `rows.Values()` returned an error: the handler answers 500 and returns. -/
  | valuesError (pulled : Nat)
  /-- The loop was left, by `break` (`closed = false`) or because `rows.Next()`
  returned false, which closes the cursor (`closed = true`). -/
  | finished (w : CsvWriter) (currentRow : Nat) (pulled : Nat) (closed : Bool)
deriving DecidableEq

/-- Lines 84-104: the row loop.  The list holds the rows the cursor has not
yet yielded, `currentRow` counts the records appended, `pulled` the rows for
which `rows.Next()` returned true. -/
def rowLoop (nFields : Nat) (max : Int) :
    List (Option (List Value)) → CsvWriter → Nat → Nat → LoopExit
  | [], w, currentRow, pulled => LoopExit.finished w currentRow pulled true
  | none :: _, _, _, pulled => LoopExit.valuesError (pulled + 1)
  | some values :: rest, w, currentRow, pulled =>
    let w1 := (w.Write (records nFields values)).Flush
    if w1.Len > max then LoopExit.finished w1 (currentRow + 1) (pulled + 1) false
    else rowLoop nFields max rest w1 (currentRow + 1) (pulled + 1)

/-- Lines 105-117: the range header and the status, the affected-rows header,
then the buffer goes to the body. -/
def finalize (w : ResponseWriter) (cw : CsvWriter) (currentRow : Nat) (max : Int)
    (cmdTag : CommandTag) : ResponseWriter :=
  let w1 :=
    if cw.Len > max then
      (w.Set "Content-Range" ("rows 0-" ++ Itoa currentRow ++ "/*")).WriteHeader
        StatusPartialContent
    else
      w.Set "Content-Range" ("rows 0-" ++ Itoa currentRow ++ "/" ++ Itoa currentRow)
  let w2 :=
    if cmdTag.Insert ∨ cmdTag.Update ∨ cmdTag.Delete then
      w1.Set "Rows-Affected" (FormatInt cmdTag.RowsAffected)
    else w1
  bufWriteTo cw.buf w2

/-- The call `rows.CommandTag()`: pgx stores the tag when the cursor is closed;
before that the tag is empty. -/
def commandTag (rows : Rows) (closed : Bool) : CommandTag :=
  if closed then rows.tag else CommandTag.empty

/-- What a run of the handler leaves behind: the response as sent (a handler
that returns without committing the head gets status 200 and the header map
as it stands), and what happened at the database. -/
structure Outcome where
  /-- Status code of the response. -/
  status : Nat
  /-- Headers of the response: the header map at the moment the head was committed. -/
  header : Header
  /-- Body of the response. -/
  body : Bytes
  /-- Whether `pgx.Connect` was called. -/
  connected : Bool
  /-- Whether `conn.Query` was called. -/
  queried : Bool
  /-- Number of rows for which `rows.Next()` returned true. -/
  pulled : Nat
deriving DecidableEq

/-- The handler returns: the server commits the head if the handler did not. -/
def finish (w : ResponseWriter) (connected queried : Bool) (pulled : Nat) : Outcome :=
  let w1 := w.WriteHeader StatusOK
  { status := w1.status, header := w1.sentHeader, body := w1.body,
    connected := connected, queried := queried, pulled := pulled }

/-- Lines 74-80: `coltypesWriter.Write(colTypes)`, `coltypesWriter.Flush()`,
`coltypesBuf.String()`.  After the flush the buffer holds the whole record
(`coltypesBuf_flushed` below). -/
def coltypesString (colTypes : List String) : String := csvRecord colTypes

/-- Lines 58-117: the handler once `conn.Query` has returned `rows`. -/
def stream (conn : Conn) (rows : Rows) (max : Int) (w : ResponseWriter) : Outcome :=
  let fields := rows.fields
  match columns conn fields with
  | none => finish (w.WriteHeader StatusInternalServerError) true true 0
  | some (colNames, colTypes) =>
    let w1 := w.Add "Content-Type" ("text/csv; coltypes=" ++ coltypesString colTypes)
    let csvWriter := CsvWriter.new.Write colNames
    match rowLoop fields.length max rows.data csvWriter 0 0 with
    | LoopExit.valuesError pulled =>
      finish (w1.WriteHeader StatusInternalServerError) true true pulled
    | LoopExit.finished cw currentRow pulled closed =>
      finish (finalize w1 cw currentRow max (commandTag rows closed)) true true pulled

/-- The handler `query` of main.go. -/
def query (db : Database) (req : Request) : Outcome :=
  let w := ResponseWriter.new
  if req.Method ≠ "POST" then
    finish (w.WriteHeader StatusMethodNotAllowed) false false 0
  else
    let contentType := headerGet req.Header "Content-Type"
    if contentType ≠ "" ∧ contentType ≠ "text/sql" then
      finish (w.WriteHeader StatusUnsupportedMediaType) false false 0
    else
      let max := maxResponseSize req
      match req.Body with
      | none => finish (w.WriteHeader StatusBadRequest) false false 0
      | some body =>
        match db.Connect with
        | none => finish (w.WriteHeader StatusInternalServerError) true false 0
        | some conn =>
          match conn.Query body with
          | Except.error err =>
            finish ((w.WriteHeader StatusInternalServerError).Write (utf8Bytes err)) true true 0
          | Except.ok rows => stream conn rows max w

/-! ## Vocabulary of the properties -/

/-- The records of the rows, as the row loop appends them to the buffer. -/
def encodedRows (nFields : Nat) (rows : List (List Value)) : Bytes :=
  rows.flatMap (fun values => utf8Bytes (csvRecord (records nFields values)))

/-- The byte length of the column-name record followed by the records of the
rows: the length of the fully encoded output when `rows` are all the rows. -/
def encodedLen (colNames : List String) (nFields : Nat) (rows : List (List Value)) : Int :=
  (((utf8Bytes (csvRecord colNames) ++ encodedRows nFields rows).length : Nat) : Int)

/-- The request is admitted, its body is read, the connection opens and
`conn.Query` returns `rows`. -/
structure Succeeds (db : Database) (req : Request) (conn : Conn) (rows : Rows) : Prop where
  method : req.Method = "POST"
  contentType : headerGet req.Header "Content-Type" = "" ∨
    headerGet req.Header "Content-Type" = "text/sql"
  connect : db.Connect = some conn
  run : ∃ sql, req.Body = some sql ∧ conn.Query sql = Except.ok rows

/-- The checkpoint property of the row loop for a cursor that yields the rows
`good` and a ceiling `c`: `k` rows are pulled, `k` is the end value of
`Content-Range`, the body holds the records of exactly the first `k` rows
after `head` (the column-name record, or what the buffer holds of it when no
row was appended), and `k` is the least `j ≥ 1` at which the encoded length
exceeds `c`, or the number of rows when there is no such `j`. -/
def Checkpoint (out : Outcome) (colNames : List String) (nFields : Nat)
    (good : List (List Value)) (c : Int) : Prop :=
  ∃ (k : Nat) (head : Bytes),
    k ≤ good.length ∧ out.pulled = k ∧
    (headerGet out.header "Content-Range" = "rows 0-" ++ Itoa k ++ "/*" ∨
      headerGet out.header "Content-Range" = "rows 0-" ++ Itoa k ++ "/" ++ Itoa k) ∧
    out.body = head ++ encodedRows nFields (good.take k) ∧
    head <+: utf8Bytes (csvRecord colNames) ∧
    (1 ≤ k → head = utf8Bytes (csvRecord colNames)) ∧
    (∀ j, 1 ≤ j → j < k → encodedLen colNames nFields (good.take j) ≤ c) ∧
    ((1 ≤ k ∧ c < encodedLen colNames nFields (good.take k)) ∨
      (k = good.length ∧
        ∀ j, 1 ≤ j → j ≤ good.length → encodedLen colNames nFields (good.take j) ≤ c))


/-! ## Concrete databases and requests -/

/-- A type table that knows the OIDs 23 (`int4`) and 25 (`text`). -/
def pgTypes (oid : Nat) : Option String :=
  if oid = 23 then some "int4" else if oid = 25 then some "text" else none

/-- A connection whose every query returns `rows`. -/
def connOf (rows : Rows) : Conn :=
  { Query := fun _ => Except.ok rows, DataTypeForOID := pgTypes }

/-- A database that accepts the connection and answers every query with `rows`. -/
def dbOf (rows : Rows) : Database := { Connect := some (connOf rows) }

/-- A POST request with the given headers and query text. -/
def post (header : Header) (sql : String) : Request :=
  { Method := "POST", Header := header, Body := some sql }

/-- The tag of a `SELECT`. -/
def selectTag : CommandTag :=
  { Insert := false, Update := false, Delete := false, RowsAffected := 0 }

/-- `SELECT 1 AS a WHERE false`: one int4 column, no row. -/
def noRows : Rows :=
  { fields := [{ Name := "a", DataTypeOID := 23 }], data := [], tag := selectTag }

/-- `SELECT 1 AS a`: one int4 column, one row. -/
def oneRow : Rows :=
  { fields := [{ Name := "a", DataTypeOID := 23 }], data := [some [Value.int 1]],
    tag := selectTag }

/-- Three rows of one text column; with the column-name record `abc` the
encoded output is 4 + 3 * 12 = 40 bytes. -/
def threeRows : Rows :=
  { fields := [{ Name := "abc", DataTypeOID := 25 }],
    data := [some [Value.text "abcdefghijk"], some [Value.text "lmnopqrstuv"],
      some [Value.text "wxyzabcdefg"]],
    tag := selectTag }

/-- `INSERT INTO t VALUES (1) RETURNING id`: one row comes back, one row affected. -/
def insertReturning : Rows :=
  { fields := [{ Name := "id", DataTypeOID := 23 }], data := [some [Value.int 1]],
    tag := { Insert := true, Update := false, Delete := false, RowsAffected := 1 } }

/-- `DELETE FROM t`: no column, no row, three rows affected. -/
def deleteThree : Rows :=
  { fields := [], data := [],
    tag := { Insert := false, Update := false, Delete := true, RowsAffected := 3 } }

/-- A column whose type OID the connection does not know. -/
def unknownType : Rows :=
  { fields := [{ Name := "a", DataTypeOID := 23 }, { Name := "b", DataTypeOID := 99999 }],
    data := [some [Value.int 1, Value.null]], tag := selectTag }

/-- Two rows, the second of which cannot be read. -/
def badSecondRow : Rows :=
  { fields := [{ Name := "a", DataTypeOID := 23 }], data := [some [Value.int 1], none],
    tag := selectTag }

/-- Two rows of a text and an int4 column; the text fields need quotes (a
comma, a quote), and the last value is NULL. -/
def quotedRows : Rows :=
  { fields := [{ Name := "name", DataTypeOID := 25 }, { Name := "n", DataTypeOID := 23 }],
    data := [some [Value.text "a,b", Value.int 1],
      some [Value.text (String.mk [Char.ofNat 115, Char.ofNat 34, Char.ofNat 116]), Value.null]],
    tag := selectTag }

/-! ## Lemmas on the buffer, the row loop and the finalization -/

/-- Writing a byte appends it to what the buffer and the writer hold together. -/
theorem writeByte_bytes (w : CsvWriter) (b : UInt8) :
    (w.writeByte b).buf ++ (w.writeByte b).pend = w.buf ++ w.pend ++ [b] := by
  unfold CsvWriter.writeByte
  split <;> simp

/-- Writing bytes one after the other appends them all. -/
theorem foldl_writeByte_bytes (bs : Bytes) (w : CsvWriter) :
    (bs.foldl CsvWriter.writeByte w).buf ++ (bs.foldl CsvWriter.writeByte w).pend
      = w.buf ++ w.pend ++ bs := by
  induction bs generalizing w with
  | nil => simp
  | cons b bs ih =>
    rw [List.foldl_cons, ih, writeByte_bytes]
    simp

/-- After `Write` and `Flush` the buffer holds everything and the writer nothing. -/
theorem Write_Flush (w : CsvWriter) (record : List String) :
    (w.Write record).Flush
      = { buf := w.buf ++ w.pend ++ utf8Bytes (csvRecord record), pend := [] } := by
  simp only [CsvWriter.Flush, CsvWriter.Write, foldl_writeByte_bytes]

/-- The call `Write` appends the bytes of the record, in the buffer or in the writer. -/
theorem Write_bytes (w : CsvWriter) (record : List String) :
    (w.Write record).buf ++ (w.Write record).pend
      = w.buf ++ w.pend ++ utf8Bytes (csvRecord record) := by
  simp only [CsvWriter.Write, foldl_writeByte_bytes]

/-- After line 80 `coltypesBuf` holds the bytes of the whole type record. -/
theorem coltypesBuf_flushed (colTypes : List String) :
    ((CsvWriter.new.Write colTypes).Flush).buf = utf8Bytes (coltypesString colTypes) := by
  simp [Write_Flush, CsvWriter.new, coltypesString]

/-- The records of a row list: the first record, then the others. -/
theorem encodedRows_cons (nFields : Nat) (values : List Value) (rest : List (List Value)) :
    encodedRows nFields (values :: rest)
      = utf8Bytes (csvRecord (records nFields values)) ++ encodedRows nFields rest := by
  simp [encodedRows]

/-- The row loop on a cursor without row errors: it appends `k` records, stops at
the first row after which the buffer exceeds the ceiling, and closes the cursor
only when it has pulled every row without stopping. -/
theorem rowLoop_good (nFields : Nat) (max : Int) (good : List (List Value)) :
    ∀ (w : CsvWriter) (currentRow pulled : Nat),
    ∃ (k : Nat) (w1 : CsvWriter) (closed : Bool),
      rowLoop nFields max (good.map some) w currentRow pulled
        = LoopExit.finished w1 (currentRow + k) (pulled + k) closed ∧
      k ≤ good.length ∧
      (k = 0 → w1 = w ∧ good = []) ∧
      w1.buf ++ w1.pend = w.buf ++ w.pend ++ encodedRows nFields (good.take k) ∧
      (1 ≤ k → w1.pend = []) ∧
      (∀ j, 1 ≤ j → j < k →
        (((w.buf ++ w.pend ++ encodedRows nFields (good.take j)).length : Nat) : Int) ≤ max) ∧
      (closed = false → 1 ≤ k ∧ max < w1.Len) ∧
      (closed = true → k = good.length ∧ (1 ≤ k → w1.Len ≤ max)) := by
  induction good with
  | nil =>
    intro w currentRow pulled
    refine ⟨0, w, true, ?_, ?_, ?_, ?_, ?_, ?_, ?_, ?_⟩ <;> simp [rowLoop, encodedRows]
  | cons values rest ih =>
    intro w currentRow pulled
    have hfl := Write_Flush w (records nFields values)
    by_cases hlen : ((w.Write (records nFields values)).Flush).Len > max
    · refine ⟨1, (w.Write (records nFields values)).Flush, false, ?_, ?_, ?_, ?_, ?_, ?_, ?_, ?_⟩
      · simp [rowLoop, hlen]
      · simp
      · simp
      · simp [hfl, encodedRows]
      · intro _
        simp [hfl]
      · intro j h1 h2
        omega
      · intro _
        exact ⟨le_refl _, hlen⟩
      · simp
    · obtain ⟨k, w1, closed, hrun, hk, hzero, hbytes, hpend, hbelow, hopen, hclosed⟩ :=
        ih ((w.Write (records nFields values)).Flush) (currentRow + 1) (pulled + 1)
      have hle : ((w.Write (records nFields values)).Flush).Len ≤ max := not_lt.mp hlen
      rw [hfl] at hbytes hbelow hzero hle
      simp only [List.append_nil] at hbytes hbelow
      refine ⟨k + 1, w1, closed, ?_, ?_, ?_, ?_, ?_, ?_, ?_, ?_⟩
      · simp only [List.map_cons, rowLoop, hlen, if_false]
        rw [hrun]
        simp [Nat.add_assoc, Nat.add_comm 1 k]
      · simp only [List.length_cons]
        omega
      · intro h
        omega
      · rw [hbytes, List.take_succ_cons, encodedRows_cons]
        simp
      · intro _
        by_cases hk0 : k = 0
        · rw [(hzero hk0).1]
        · exact hpend (by omega)
      · intro j h1 h2
        obtain ⟨i, rfl⟩ : ∃ i, j = i + 1 := ⟨j - 1, by omega⟩
        rw [List.take_succ_cons, encodedRows_cons]
        by_cases hi : i = 0
        · subst hi
          simpa [CsvWriter.Len, encodedRows] using hle
        · have := hbelow i (by omega) (by omega)
          simpa using this
      · intro hc
        exact ⟨by omega, (hopen hc).2⟩
      · intro hc
        refine ⟨by simp only [List.length_cons]; rw [(hclosed hc).1], fun _ => ?_⟩
        by_cases hk0 : k = 0
        · rw [(hzero hk0).1]
          exact hle
        · exact (hclosed hc).2 (by omega)

/-- An admitted request whose query succeeds reaches line 58 with the resolved ceiling. -/
theorem query_of_succeeds (db : Database) (req : Request) (conn : Conn) (rows : Rows)
    (h : Succeeds db req conn rows) :
    query db req = stream conn rows (maxResponseSize req) ResponseWriter.new := by
  obtain ⟨hm, hct, hc, sql, hb, hq⟩ := h
  have hadm : ¬ (headerGet req.Header "Content-Type" ≠ "" ∧
      headerGet req.Header "Content-Type" ≠ "text/sql") := by
    rcases hct with h1 | h1 <;> simp [h1]
  simp only [query, hm, ne_eq, not_true_eq_false, if_false, hadm, hb, hc, hq]

/-- The response that finalization produces from the buffer, the row count, the
ceiling and the command tag. -/
theorem finish_finalize (v : String) (cw : CsvWriter) (k : Nat) (c : Int) (tag : CommandTag)
    (a b : Bool) (p : Nat) :
    finish (finalize (ResponseWriter.new.Add "Content-Type" v) cw k c tag) a b p
      = { status := if cw.Len > c then 206 else 200,
          header :=
            if cw.Len > c then
              [("Content-Type", [v]), ("Content-Range", ["rows 0-" ++ Itoa k ++ "/*"])]
            else if tag.Insert ∨ tag.Update ∨ tag.Delete then
              [("Content-Type", [v]),
                ("Content-Range", ["rows 0-" ++ Itoa k ++ "/" ++ Itoa k]),
                ("Rows-Affected", [FormatInt tag.RowsAffected])]
            else
              [("Content-Type", [v]),
                ("Content-Range", ["rows 0-" ++ Itoa k ++ "/" ++ Itoa k])],
          body := cw.buf, connected := a, queried := b, pulled := p } := by
  have hbuf : cw.buf.length = 0 → cw.buf = [] := List.eq_nil_of_length_eq_zero
  by_cases h1 : cw.Len > c <;> by_cases h2 : (tag.Insert ∨ tag.Update ∨ tag.Delete) <;>
    by_cases h3 : cw.buf.length > 0 <;>
    simp [finish, finalize, bufWriteTo, ResponseWriter.new, ResponseWriter.Add,
      ResponseWriter.Set, ResponseWriter.WriteHeader, ResponseWriter.Write, headerAdd,
      headerSet, h1, h2, h3, StatusOK, StatusPartialContent] <;>
    simp_all

/-- The records of all rows are those of the first `k` followed by the rest. -/
theorem encodedRows_take_drop (nFields k : Nat) (good : List (List Value)) :
    encodedRows nFields good
      = encodedRows nFields (good.take k) ++ encodedRows nFields (good.drop k) := by
  conv_lhs => rw [← List.take_append_drop k good]
  simp only [encodedRows, List.flatMap_append]

/-- The encoded length of a leading part of the rows is at most that of all rows. -/
theorem encodedLen_take_le (colNames : List String) (nFields k : Nat)
    (good : List (List Value)) :
    encodedLen colNames nFields (good.take k) ≤ encodedLen colNames nFields good := by
  unfold encodedLen
  rw [encodedRows_take_drop nFields k good]
  simp only [List.length_append]
  omega

/-- The handler after `conn.Query`, on known column types and a cursor without
row errors: the loop facts of `rowLoop_good` started from the column-name record. -/
theorem stream_good (conn : Conn) (rows : Rows) (c : Int) (colNames colTypes : List String)
    (good : List (List Value))
    (hcols : columns conn rows.fields = some (colNames, colTypes))
    (hgood : rows.data = good.map some) :
    ∃ (k : Nat) (cw : CsvWriter) (closed : Bool),
      stream conn rows c ResponseWriter.new
        = finish (finalize
            (ResponseWriter.new.Add "Content-Type"
              ("text/csv; coltypes=" ++ coltypesString colTypes))
            cw k c (commandTag rows closed)) true true k ∧
      k ≤ good.length ∧
      (k = 0 → cw = CsvWriter.new.Write colNames ∧ good = []) ∧
      cw.buf ++ cw.pend
        = utf8Bytes (csvRecord colNames) ++ encodedRows rows.fields.length (good.take k) ∧
      (1 ≤ k → cw.pend = []) ∧
      (∀ j, 1 ≤ j → j < k → encodedLen colNames rows.fields.length (good.take j) ≤ c) ∧
      (closed = false → 1 ≤ k ∧ c < cw.Len) ∧
      (closed = true → k = good.length ∧ (1 ≤ k → cw.Len ≤ c)) := by
  obtain ⟨k, cw, closed, hrun, hk, hzero, hbytes, hpend, hbelow, hopen, hclosed⟩ :=
    rowLoop_good rows.fields.length c good (CsvWriter.new.Write colNames) 0 0
  have hw : (CsvWriter.new.Write colNames).buf ++ (CsvWriter.new.Write colNames).pend
      = utf8Bytes (csvRecord colNames) := by
    rw [Write_bytes]
    simp [CsvWriter.new]
  rw [hw] at hbytes hbelow
  simp only [Nat.zero_add] at hrun
  refine ⟨k, cw, closed, ?_, hk, hzero, hbytes, hpend, hbelow, hopen, hclosed⟩
  simp only [stream, hcols, hgood, hrun]

/-- After `conn.Query` the status is 200, 206 or 500. -/
theorem status_stream (conn : Conn) (rows : Rows) (c : Int) :
    (stream conn rows c ResponseWriter.new).status = 200 ∨
    (stream conn rows c ResponseWriter.new).status = 206 ∨
    (stream conn rows c ResponseWriter.new).status = 500 := by
  cases hcols : columns conn rows.fields with
  | none =>
    simp [stream, hcols, finish, ResponseWriter.WriteHeader, ResponseWriter.new,
      StatusInternalServerError]
  | some names =>
    obtain ⟨colNames, colTypes⟩ := names
    cases hloop : rowLoop rows.fields.length c rows.data (CsvWriter.new.Write colNames) 0 0 with
    | valuesError pulled =>
      simp [stream, hcols, hloop, finish, ResponseWriter.WriteHeader, ResponseWriter.new,
        ResponseWriter.Add, StatusInternalServerError]
    | finished cw currentRow pulled closed =>
      simp only [stream, hcols, hloop, finish_finalize]
      by_cases h : cw.Len > c <;> simp [h]

/-- One unknown type makes the metadata projection fail. -/
theorem columns_none (conn : Conn) (fields : List FieldDescription)
    (h : ∃ f ∈ fields, conn.DataTypeForOID f.DataTypeOID = none) :
    columns conn fields = none := by
  induction fields with
  | nil => simp at h
  | cons field rest ih =>
    obtain ⟨f, hf, hnone⟩ := h
    rcases List.mem_cons.mp hf with rfl | hmem
    · simp [columns, hnone]
    · simp only [columns]
      split
      · rfl
      · simp [ih ⟨f, hmem, hnone⟩]

/-- A row that cannot be read ends the loop when no earlier row crossed the ceiling. -/
theorem rowLoop_error (nFields : Nat) (c : Int) (good : List (List Value))
    (rest : List (Option (List Value))) :
    ∀ (w : CsvWriter) (currentRow pulled : Nat),
      (∀ j, 1 ≤ j → j ≤ good.length →
        (((w.buf ++ w.pend ++ encodedRows nFields (good.take j)).length : Nat) : Int) ≤ c) →
      rowLoop nFields c (good.map some ++ none :: rest) w currentRow pulled
        = LoopExit.valuesError (pulled + good.length + 1) := by
  induction good with
  | nil =>
    intro w currentRow pulled _
    simp [rowLoop]
  | cons values more ih =>
    intro w currentRow pulled hbelow
    have hfl := Write_Flush w (records nFields values)
    have h1 := hbelow 1 (le_refl _) (by simp)
    simp only [List.take_succ_cons, List.take_zero, encodedRows_cons] at h1
    have hle : ¬ ((w.Write (records nFields values)).Flush).Len > c := by
      rw [hfl]
      simp only [CsvWriter.Len, encodedRows, List.flatMap_nil, List.append_nil] at h1 ⊢
      omega
    have hstep : rowLoop nFields c (some values :: (more.map some ++ none :: rest)) w
        currentRow pulled
        = rowLoop nFields c (more.map some ++ none :: rest)
            ((w.Write (records nFields values)).Flush) (currentRow + 1) (pulled + 1) := by
      simp only [rowLoop, hle, if_false]
    rw [List.map_cons, List.cons_append, hstep, ih]
    · simp only [List.length_cons]
      congr 1
      omega
    · intro j hj1 hj2
      have := hbelow (j + 1) (by omega) (by simp only [List.length_cons]; omega)
      rw [hfl]
      simpa [List.take_succ_cons, encodedRows_cons] using this

/-- Reading `Content-Range` from the headers of a 206 response. -/
theorem headerGet_range_partial (v x : String) :
    headerGet [("Content-Type", [v]), ("Content-Range", [x])] "Content-Range" = x := by
  simp [headerGet, List.lookup]

/-- Reading `Content-Range` from the headers of a 200 response. -/
theorem headerGet_range_full (v x : String) (more : Header) :
    headerGet (("Content-Type", [v]) :: ("Content-Range", [x]) :: more) "Content-Range" = x := by
  simp [headerGet, List.lookup]

/-- The checkpoint property of the handler after `conn.Query`, at any ceiling. -/
theorem stream_checkpoint (conn : Conn) (rows : Rows) (c : Int) (colNames colTypes : List String)
    (good : List (List Value))
    (hcols : columns conn rows.fields = some (colNames, colTypes))
    (hgood : rows.data = good.map some) :
    Checkpoint (stream conn rows c ResponseWriter.new) colNames rows.fields.length good c := by
  obtain ⟨k, cw, closed, hrun, hk, hzero, hbytes, hpend, hbelow, hopen, hclosed⟩ :=
    stream_good conn rows c colNames colTypes good hcols hgood
  rw [hrun, finish_finalize]
  have hfull : 1 ≤ k → cw.buf
      = utf8Bytes (csvRecord colNames) ++ encodedRows rows.fields.length (good.take k) := by
    intro h1
    rw [← hbytes, hpend h1, List.append_nil]
  have hlen : 1 ≤ k → cw.Len = encodedLen colNames rows.fields.length (good.take k) := by
    intro h1
    simp only [CsvWriter.Len, encodedLen, hfull h1]
  refine ⟨k, if 1 ≤ k then utf8Bytes (csvRecord colNames) else cw.buf, hk, rfl, ?_, ?_, ?_, ?_,
    hbelow, ?_⟩
  · by_cases h1 : cw.Len > c
    · left
      simp only [h1, if_true]
      exact headerGet_range_partial _ _
    · right
      simp only [h1, if_false]
      split <;> exact headerGet_range_full _ _ _
  · by_cases h1 : 1 ≤ k
    · simp only [h1, if_true]
      exact hfull h1
    · have h0 : k = 0 := by omega
      subst h0
      simp [encodedRows]
  · by_cases h1 : 1 ≤ k
    · simp only [h1, if_true]
      exact List.prefix_refl _
    · have h0 : k = 0 := by omega
      subst h0
      simp only [h1, if_false]
      simp only [List.take_zero, encodedRows, List.flatMap_nil, List.append_nil] at hbytes
      exact ⟨cw.pend, hbytes⟩
  · intro h1
    simp [h1]
  · cases hcl : closed with
    | false =>
      left
      obtain ⟨h1, h2⟩ := hopen hcl
      exact ⟨h1, by rw [← hlen h1]; exact h2⟩
    | true =>
      right
      obtain ⟨h1, h2⟩ := hclosed hcl
      refine ⟨h1, fun j hj1 hj2 => ?_⟩
      by_cases hj : j < k
      · exact hbelow j hj1 hj
      · have hjk : j = k := by omega
        subst hjk
        rw [← hlen hj1]
        exact h2 hj1

/-! ## The claims -/

/-- C1, evaluated on the code: with `Max-Content-Length: 10` the ceiling is
1048576 (the default), not 10, and without the header it is 0, not the default;
the 40 byte result of three rows under `Max-Content-Length: 10` is answered
with status 200 and `rows 0-3/3`. -/
theorem ceiling_of_valid_header_is_default :
    maxResponseSize (post [("Max-Content-Length", ["10"])] "select abc from t") = 1048576 ∧
    maxResponseSize (post [] "select abc from t") = 0 ∧
    encodedLen ["abc"] 1
      [[Value.text "abcdefghijk"], [Value.text "lmnopqrstuv"], [Value.text "wxyzabcdefg"]] = 40 ∧
    (query (dbOf threeRows)
      (post [("Max-Content-Length", ["10"])] "select abc from t")).status = 200 ∧
    headerGet (query (dbOf threeRows)
      (post [("Max-Content-Length", ["10"])] "select abc from t")).header "Content-Range"
      = "rows 0-3/3" := by
  decide

/-- C2, amended: for an admitted request whose query succeeds with at least
one row and no row error, and whose fully encoded output is longer than the
resolved ceiling, the status is 206 and `Content-Range` is `rows 0-k/*`, where
`k ≥ 1` is the number of the first row after which the encoded output exceeds
the ceiling: exactly `k` rows are pulled and the body is the column-name
record and the records of the first `k` rows.  So `k` is strictly less than
the row count of the cursor exactly when the output exceeds the ceiling
before the last row, and `k` is the row count when the last row is the first
to cross. -/
theorem partial_content_over_ceiling (db : Database) (req : Request) (conn : Conn) (rows : Rows)
    (colNames colTypes : List String) (good : List (List Value))
    (h : Succeeds db req conn rows)
    (hcols : columns conn rows.fields = some (colNames, colTypes))
    (hgood : rows.data = good.map some)
    (hrows : 1 ≤ good.length)
    (hover : maxResponseSize req < encodedLen colNames rows.fields.length good) :
    (query db req).status = 206 ∧
    ∃ k, 1 ≤ k ∧ k ≤ good.length ∧
      headerGet (query db req).header "Content-Range" = "rows 0-" ++ Nat.repr k ++ "/*" ∧
      (query db req).pulled = k ∧
      (query db req).body
        = utf8Bytes (String.intercalate "," (colNames.map encodeField) ++ "\n") ++
          (good.take k).flatMap (fun values =>
            utf8Bytes (String.intercalate ","
              ((records rows.fields.length values).map encodeField) ++ "\n")) ∧
      maxResponseSize req < encodedLen colNames rows.fields.length (good.take k) ∧
      (∀ j, 1 ≤ j → j < k →
        encodedLen colNames rows.fields.length (good.take j) ≤ maxResponseSize req) ∧
      (k < good.length ↔
        ∃ j, 1 ≤ j ∧ j < good.length ∧
          maxResponseSize req < encodedLen colNames rows.fields.length (good.take j)) := by
  rw [query_of_succeeds db req conn rows h]
  obtain ⟨k, cw, closed, hrun, hk, hzero, hbytes, hpend, hbelow, hopen, hclosed⟩ :=
    stream_good conn rows (maxResponseSize req) colNames colTypes good hcols hgood
  rw [hrun, finish_finalize]
  have hk1 : 1 ≤ k := by
    by_contra hlt
    have h0 : k = 0 := by omega
    have := (hzero h0).2
    rw [this] at hrows
    simp at hrows
  have hfull : cw.buf
      = utf8Bytes (csvRecord colNames) ++ encodedRows rows.fields.length (good.take k) := by
    rw [← hbytes, hpend hk1, List.append_nil]
  have hlen : cw.Len = encodedLen colNames rows.fields.length (good.take k) := by
    simp only [CsvWriter.Len, encodedLen, hfull]
  have hgt : cw.Len > maxResponseSize req := by
    cases hcl : closed with
    | false => exact (hopen hcl).2
    | true =>
      obtain ⟨hall, _⟩ := hclosed hcl
      rw [hlen, hall, List.take_length]
      exact hover
  refine ⟨?_, k, hk1, hk, ?_, rfl, ?_, ?_, hbelow, ?_⟩
  · simp only [hgt, if_true]
  · simp only [hgt, if_true]
    exact headerGet_range_partial _ _
  · exact hfull
  · rw [← hlen]
    exact hgt
  · constructor
    · intro hlt
      exact ⟨k, hk1, hlt, by rw [← hlen]; exact hgt⟩
    · rintro ⟨j, hj1, hjn, hj⟩
      by_contra hnot
      have hjk : j < k := by omega
      have := hbelow j hj1 hjk
      omega

/-- C2, witness: three rows of 12 bytes each after a column-name record of 4
bytes under the ceiling 0 of a request without the header: the first row
crosses, the answer is 206 with `rows 0-1/*` and the body ends after that row. -/
theorem partial_content_over_ceiling_witness :
    ((query (dbOf threeRows) (post [] "select abc from t")).status = 206 ∧
      ∃ k, 1 ≤ k ∧
        k ≤ [[Value.text "abcdefghijk"], [Value.text "lmnopqrstuv"],
          [Value.text "wxyzabcdefg"]].length ∧
        headerGet (query (dbOf threeRows) (post [] "select abc from t")).header "Content-Range"
          = "rows 0-" ++ Nat.repr k ++ "/*" ∧
        (query (dbOf threeRows) (post [] "select abc from t")).pulled = k ∧
        (query (dbOf threeRows) (post [] "select abc from t")).body
          = utf8Bytes (String.intercalate "," (["abc"].map encodeField) ++ "\n") ++
            ([[Value.text "abcdefghijk"], [Value.text "lmnopqrstuv"],
              [Value.text "wxyzabcdefg"]].take k).flatMap (fun values =>
              utf8Bytes (String.intercalate ","
                ((records threeRows.fields.length values).map encodeField) ++ "\n")) ∧
        maxResponseSize (post [] "select abc from t")
          < encodedLen ["abc"] threeRows.fields.length
            ([[Value.text "abcdefghijk"], [Value.text "lmnopqrstuv"],
              [Value.text "wxyzabcdefg"]].take k) ∧
        (∀ j, 1 ≤ j → j < k →
          encodedLen ["abc"] threeRows.fields.length
            ([[Value.text "abcdefghijk"], [Value.text "lmnopqrstuv"],
              [Value.text "wxyzabcdefg"]].take j) ≤ maxResponseSize (post [] "select abc from t")) ∧
        (k < [[Value.text "abcdefghijk"], [Value.text "lmnopqrstuv"],
            [Value.text "wxyzabcdefg"]].length ↔
          ∃ j, 1 ≤ j ∧
            j < [[Value.text "abcdefghijk"], [Value.text "lmnopqrstuv"],
              [Value.text "wxyzabcdefg"]].length ∧
            maxResponseSize (post [] "select abc from t")
              < encodedLen ["abc"] threeRows.fields.length
                ([[Value.text "abcdefghijk"], [Value.text "lmnopqrstuv"],
                  [Value.text "wxyzabcdefg"]].take j))) ∧
    headerGet (query (dbOf threeRows) (post [] "select abc from t")).header "Content-Range"
      = "rows 0-1/*" ∧
    (query (dbOf threeRows) (post [] "select abc from t")).pulled = 1 ∧
    (query (dbOf threeRows) (post [] "select abc from t")).body
      = [97, 98, 99, 10, 97, 98, 99, 100, 101, 102, 103, 104, 105, 106, 107, 10] ∧
    (query (dbOf oneRow) (post [] "select 1 as a")).status = 206 ∧
    headerGet (query (dbOf oneRow) (post [] "select 1 as a")).header "Content-Range"
      = "rows 0-1/*" ∧
    (query (dbOf oneRow) (post [] "select 1 as a")).body = [97, 10, 49, 10] :=
  ⟨partial_content_over_ceiling (dbOf threeRows) (post [] "select abc from t")
      (connOf threeRows) threeRows ["abc"] ["text"]
      [[Value.text "abcdefghijk"], [Value.text "lmnopqrstuv"], [Value.text "wxyzabcdefg"]]
      ⟨by decide, by decide, rfl, "select abc from t", rfl, rfl⟩ (by decide) (by decide)
      (by decide) (by decide),
    by decide, by decide, by decide, by decide, by decide, by decide⟩

/-- C2, counterexample: the cursor yields one row, the encoded output (4 bytes)
is longer than the ceiling 0, the answer is `rows 0-1/*`: the end value 1 is not
strictly less than the row count 1. -/
theorem end_row_not_below_row_count :
    Succeeds (dbOf oneRow) (post [] "select 1 as a") (connOf oneRow) oneRow ∧
    columns (connOf oneRow) oneRow.fields = some (["a"], ["int4"]) ∧
    oneRow.data = [[Value.int 1]].map some ∧
    maxResponseSize (post [] "select 1 as a") < encodedLen ["a"] 1 [[Value.int 1]] ∧
    (query (dbOf oneRow) (post [] "select 1 as a")).status = 206 ∧
    headerGet (query (dbOf oneRow) (post [] "select 1 as a")).header "Content-Range"
      = "rows 0-1/*" ∧
    ¬ ∃ k, k < oneRow.data.length ∧
      headerGet (query (dbOf oneRow) (post [] "select 1 as a")).header "Content-Range"
        = "rows 0-" ++ Itoa k ++ "/*" := by
  refine ⟨⟨by decide, by decide, rfl, "select 1 as a", rfl, rfl⟩, by decide, by decide,
    by decide, by decide, by decide, ?_⟩
  rintro ⟨k, hk, hrange⟩
  have h0 : k = 0 := by
    simp only [oneRow, List.length_singleton] at hk
    omega
  subst h0
  revert hrange
  decide

/-- C3: for an admitted request whose query succeeds without a row error and
whose fully encoded output is not longer than the resolved ceiling, the status
is 200, `Content-Range` is `rows 0-n/n` with `n` the decimal row count of the
cursor, all `n` rows are pulled, and the body holds the records of exactly the
`n` rows (fields joined by commas, a line feed at the end) after the
column-name record (after what the buffer holds of that record when there is
no row). -/
theorem complete_within_ceiling (db : Database) (req : Request) (conn : Conn) (rows : Rows)
    (colNames colTypes : List String) (good : List (List Value))
    (h : Succeeds db req conn rows)
    (hcols : columns conn rows.fields = some (colNames, colTypes))
    (hgood : rows.data = good.map some)
    (hfit : encodedLen colNames rows.fields.length good ≤ maxResponseSize req) :
    (query db req).status = 200 ∧
    headerGet (query db req).header "Content-Range"
      = "rows 0-" ++ Nat.repr good.length ++ "/" ++ Nat.repr good.length ∧
    (query db req).pulled = good.length ∧
    ∃ head, head <+: utf8Bytes (String.intercalate "," (colNames.map encodeField) ++ "\n") ∧
      (1 ≤ good.length →
        head = utf8Bytes (String.intercalate "," (colNames.map encodeField) ++ "\n")) ∧
      (query db req).body
        = head ++ good.flatMap (fun values =>
            utf8Bytes (String.intercalate ","
              ((records rows.fields.length values).map encodeField) ++ "\n")) := by
  rw [query_of_succeeds db req conn rows h]
  obtain ⟨k, cw, closed, hrun, hk, hzero, hbytes, hpend, hbelow, hopen, hclosed⟩ :=
    stream_good conn rows (maxResponseSize req) colNames colTypes good hcols hgood
  rw [hrun, finish_finalize]
  have hle : cw.Len ≤ encodedLen colNames rows.fields.length (good.take k) := by
    have : cw.buf.length ≤ (cw.buf ++ cw.pend).length := by simp
    rw [hbytes] at this
    simp only [CsvWriter.Len, encodedLen]
    exact_mod_cast this
  have hnot : ¬ cw.Len > maxResponseSize req := by
    have := encodedLen_take_le colNames rows.fields.length k good
    omega
  have hall : k = good.length := by
    cases hcl : closed with
    | false => exact absurd (hopen hcl).2 hnot
    | true => exact (hclosed hcl).1
  subst hall
  refine ⟨?_, ?_, rfl, ?_⟩
  · simp only [hnot, if_false]
  · simp only [hnot, if_false]
    split <;> exact headerGet_range_full _ _ _
  · by_cases h1 : 1 ≤ good.length
    · refine ⟨utf8Bytes (csvRecord colNames), List.prefix_refl _, fun _ => rfl, ?_⟩
      have hb := hbytes
      rw [List.take_length, hpend h1, List.append_nil] at hb
      exact hb
    · have h0 : good = [] := List.eq_nil_of_length_eq_zero (by omega)
      subst h0
      simp only [List.take_nil, encodedRows, List.flatMap_nil, List.append_nil] at hbytes ⊢
      exact ⟨cw.buf, ⟨cw.pend, hbytes⟩, fun h => absurd h (by simp), rfl⟩

/-- C3, witness: two rows of two columns, with fields that need quotes, under
the ceiling 1048576: status 200, `rows 0-2/2`, and the body is the column-name
record followed by the two row records, 28 bytes in all. -/
theorem complete_within_ceiling_witness :
    ((query (dbOf quotedRows)
        (post [("Max-Content-Length", ["1048576"])] "select name, n from t")).status = 200 ∧
      headerGet (query (dbOf quotedRows)
        (post [("Max-Content-Length", ["1048576"])] "select name, n from t")).header
        "Content-Range"
        = "rows 0-" ++ Nat.repr
            [[Value.text "a,b", Value.int 1],
              [Value.text (String.mk [Char.ofNat 115, Char.ofNat 34, Char.ofNat 116]),
                Value.null]].length
          ++ "/" ++ Nat.repr
            [[Value.text "a,b", Value.int 1],
              [Value.text (String.mk [Char.ofNat 115, Char.ofNat 34, Char.ofNat 116]),
                Value.null]].length ∧
      (query (dbOf quotedRows)
        (post [("Max-Content-Length", ["1048576"])] "select name, n from t")).pulled
        = [[Value.text "a,b", Value.int 1],
            [Value.text (String.mk [Char.ofNat 115, Char.ofNat 34, Char.ofNat 116]),
              Value.null]].length ∧
      ∃ head,
        head <+: utf8Bytes (String.intercalate "," (["name", "n"].map encodeField) ++ "\n") ∧
        (1 ≤ [[Value.text "a,b", Value.int 1],
            [Value.text (String.mk [Char.ofNat 115, Char.ofNat 34, Char.ofNat 116]),
              Value.null]].length →
          head = utf8Bytes (String.intercalate "," (["name", "n"].map encodeField) ++ "\n")) ∧
        (query (dbOf quotedRows)
          (post [("Max-Content-Length", ["1048576"])] "select name, n from t")).body
          = head ++
            [[Value.text "a,b", Value.int 1],
              [Value.text (String.mk [Char.ofNat 115, Char.ofNat 34, Char.ofNat 116]),
                Value.null]].flatMap (fun values =>
              utf8Bytes (String.intercalate ","
                ((records quotedRows.fields.length values).map encodeField) ++ "\n"))) ∧
    (query (dbOf quotedRows)
      (post [("Max-Content-Length", ["1048576"])] "select name, n from t")).status = 200 ∧
    (query (dbOf quotedRows)
      (post [("Max-Content-Length", ["1048576"])] "select name, n from t")).header
      = [("Content-Type", ["text/csv; coltypes=text,int4\n"]),
          ("Content-Range", ["rows 0-2/2"])] ∧
    (query (dbOf quotedRows)
      (post [("Max-Content-Length", ["1048576"])] "select name, n from t")).pulled = 2 ∧
    (query (dbOf quotedRows)
      (post [("Max-Content-Length", ["1048576"])] "select name, n from t")).body
      = [110, 97, 109, 101, 44, 110, 10,
          34, 97, 44, 98, 34, 44, 49, 10,
          34, 115, 34, 34, 116, 34, 44, 60, 110, 105, 108, 62, 10] :=
  ⟨complete_within_ceiling (dbOf quotedRows)
      (post [("Max-Content-Length", ["1048576"])] "select name, n from t") (connOf quotedRows)
      quotedRows ["name", "n"] ["text", "int4"]
      [[Value.text "a,b", Value.int 1],
        [Value.text (String.mk [Char.ofNat 115, Char.ofNat 34, Char.ofNat 116]), Value.null]]
      ⟨by decide, by decide, rfl, "select name, n from t", rfl, rfl⟩ (by decide) (by decide)
      (by decide),
    by decide, by decide, by decide, by decide⟩

/-- C4, evaluated on the code: a query with one int4 column and no row is
answered with status 200 and the right `coltypes` attribute, but with an empty
body: the column-name record `a` is still held by the csv writer, which is
flushed only inside the row loop. -/
theorem no_rows_body_is_empty :
    (query (dbOf noRows) (post [] "select 1 as a where false")).status = 200 ∧
    (query (dbOf noRows) (post [] "select 1 as a where false")).header
      = [("Content-Type", ["text/csv; coltypes=int4\n"]), ("Content-Range", ["rows 0-0/0"])] ∧
    (query (dbOf noRows) (post [] "select 1 as a where false")).body = [] ∧
    utf8Bytes (csvRecord ["a"]) = [97, 10] ∧
    (CsvWriter.new.Write ["a"]).pend = [97, 10] := by
  decide

/-- C5, evaluated on the code: an insert that returns one row is cut at the
ceiling 0 of a request without the header; the response is 206 and has no
`Rows-Affected` header although the statement's tag is an insert. -/
theorem insert_partial_lacks_rows_affected :
    insertReturning.tag.Insert = true ∧
    (query (dbOf insertReturning)
      (post [] "insert into t values (1) returning id")).status = 206 ∧
    (query (dbOf insertReturning)
      (post [] "insert into t values (1) returning id")).header
      = [("Content-Type", ["text/csv; coltypes=int4\n"]), ("Content-Range", ["rows 0-1/*"])] ∧
    (query (dbOf insertReturning)
      (post [] "insert into t values (1) returning id")).header.lookup "Rows-Affected" = none := by
  decide

/-- C6: a request whose method is not POST gets 405, a POST request whose
`Content-Type` is neither empty nor `text/sql` gets 415, in both cases without
a connection, without a query and with an empty body; a POST request whose
`Content-Type` is empty or `text/sql` gets neither 405 nor 415. -/
theorem admission (db : Database) (req : Request) :
    (req.Method ≠ "POST" →
      (query db req).status = 405 ∧ (query db req).connected = false ∧
      (query db req).queried = false ∧ (query db req).body = []) ∧
    (req.Method = "POST" → headerGet req.Header "Content-Type" ≠ "" →
      headerGet req.Header "Content-Type" ≠ "text/sql" →
      (query db req).status = 415 ∧ (query db req).connected = false ∧
      (query db req).queried = false ∧ (query db req).body = []) ∧
    (req.Method = "POST" →
      (headerGet req.Header "Content-Type" = "" ∨
        headerGet req.Header "Content-Type" = "text/sql") →
      (query db req).status ≠ 405 ∧ (query db req).status ≠ 415) := by
  refine ⟨fun hm => ?_, fun hm h1 h2 => ?_, fun hm hct => ?_⟩
  · simp [query, hm, finish, ResponseWriter.WriteHeader, ResponseWriter.new,
      StatusMethodNotAllowed]
  · simp [query, hm, h1, h2, finish, ResponseWriter.WriteHeader, ResponseWriter.new,
      StatusUnsupportedMediaType]
  · have hadm : ¬ (headerGet req.Header "Content-Type" ≠ "" ∧
        headerGet req.Header "Content-Type" ≠ "text/sql") := by
      rcases hct with h1 | h1 <;> simp [h1]
    cases hb : req.Body with
    | none =>
      simp [query, hm, hadm, hb, finish, ResponseWriter.WriteHeader, ResponseWriter.new,
        StatusBadRequest]
    | some body =>
      cases hc : db.Connect with
      | none =>
        simp [query, hm, hadm, hb, hc, finish, ResponseWriter.WriteHeader, ResponseWriter.new,
          StatusInternalServerError]
      | some conn =>
        cases hq : conn.Query body with
        | error err =>
          simp [query, hm, hadm, hb, hc, hq, finish, ResponseWriter.WriteHeader,
            ResponseWriter.Write, ResponseWriter.new, StatusInternalServerError]
        | ok rows =>
          have hrun : query db req = stream conn rows (maxResponseSize req) ResponseWriter.new :=
            query_of_succeeds db req conn rows ⟨hm, hct, hc, body, hb, hq⟩
          rw [hrun]
          rcases status_stream conn rows (maxResponseSize req) with h | h | h <;>
            simp [h]

/-- C6, witness: a GET request, a POST request with `application/json`, and a
POST request with `text/sql`. -/
theorem admission_witness :
    ((query (dbOf oneRow) { Method := "GET", Header := [], Body := some "select 1 as a" }).status
        = 405 ∧
      (query (dbOf oneRow)
        { Method := "GET", Header := [], Body := some "select 1 as a" }).connected = false ∧
      (query (dbOf oneRow)
        { Method := "GET", Header := [], Body := some "select 1 as a" }).queried = false ∧
      (query (dbOf oneRow)
        { Method := "GET", Header := [], Body := some "select 1 as a" }).body = []) ∧
    ((query (dbOf oneRow)
        (post [("Content-Type", ["application/json"])] "select 1 as a")).status = 415 ∧
      (query (dbOf oneRow)
        (post [("Content-Type", ["application/json"])] "select 1 as a")).connected = false ∧
      (query (dbOf oneRow)
        (post [("Content-Type", ["application/json"])] "select 1 as a")).queried = false ∧
      (query (dbOf oneRow)
        (post [("Content-Type", ["application/json"])] "select 1 as a")).body = []) ∧
    ((query (dbOf oneRow) (post [("Content-Type", ["text/sql"])] "select 1 as a")).status ≠ 405 ∧
      (query (dbOf oneRow)
        (post [("Content-Type", ["text/sql"])] "select 1 as a")).status ≠ 415) :=
  ⟨(admission (dbOf oneRow)
      { Method := "GET", Header := [], Body := some "select 1 as a" }).1 (by decide),
    (admission (dbOf oneRow)
      (post [("Content-Type", ["application/json"])] "select 1 as a")).2.1
      (by decide) (by decide) (by decide),
    (admission (dbOf oneRow) (post [("Content-Type", ["text/sql"])] "select 1 as a")).2.2
      (by decide) (by decide)⟩

/-- C7: when the type of some column is unknown to the connection the status
is 500, no header is sent and the body is empty; when the row loop reaches a
row whose values cannot be read (no earlier row has crossed the ceiling) the
status is 500 and the body is empty, whatever the buffer has accumulated. -/
theorem failure_atomicity (db : Database) (req : Request) (conn : Conn) (rows : Rows)
    (h : Succeeds db req conn rows) :
    ((∃ f ∈ rows.fields, conn.DataTypeForOID f.DataTypeOID = none) →
      (query db req).status = 500 ∧ (query db req).header = [] ∧ (query db req).body = []) ∧
    (∀ (colNames colTypes : List String) (good : List (List Value))
        (rest : List (Option (List Value))),
      columns conn rows.fields = some (colNames, colTypes) →
      rows.data = good.map some ++ none :: rest →
      (∀ j, 1 ≤ j → j ≤ good.length →
        encodedLen colNames rows.fields.length (good.take j) ≤ maxResponseSize req) →
      (query db req).status = 500 ∧ (query db req).body = [] ∧
        (query db req).pulled = good.length + 1) := by
  rw [query_of_succeeds db req conn rows h]
  refine ⟨fun hty => ?_, fun colNames colTypes good rest hcols hdata hbelow => ?_⟩
  · simp [stream, columns_none conn rows.fields hty, finish, ResponseWriter.WriteHeader,
      ResponseWriter.new, StatusInternalServerError]
  · have hw : (CsvWriter.new.Write colNames).buf ++ (CsvWriter.new.Write colNames).pend
        = utf8Bytes (csvRecord colNames) := by
      rw [Write_bytes]
      simp [CsvWriter.new]
    have hloop := rowLoop_error rows.fields.length (maxResponseSize req) good rest
      (CsvWriter.new.Write colNames) 0 0 (by rw [hw]; exact hbelow)
    simp [stream, hcols, hdata, hloop, finish, ResponseWriter.WriteHeader, ResponseWriter.new,
      ResponseWriter.Add, StatusInternalServerError]

/-- C7, witness: a column of unknown type, and a second row that cannot be read. -/
theorem failure_atomicity_witness :
    ((query (dbOf unknownType) (post [] "select a, b from t")).status = 500 ∧
      (query (dbOf unknownType) (post [] "select a, b from t")).header = [] ∧
      (query (dbOf unknownType) (post [] "select a, b from t")).body = []) ∧
    ((query (dbOf badSecondRow)
        (post [("Max-Content-Length", ["1048576"])] "select a from t")).status = 500 ∧
      (query (dbOf badSecondRow)
        (post [("Max-Content-Length", ["1048576"])] "select a from t")).body = [] ∧
      (query (dbOf badSecondRow)
        (post [("Max-Content-Length", ["1048576"])] "select a from t")).pulled
        = [[Value.int 1]].length + 1) :=
  ⟨(failure_atomicity (dbOf unknownType) (post [] "select a, b from t") (connOf unknownType)
      unknownType ⟨by decide, by decide, rfl, "select a, b from t", rfl, rfl⟩).1
      ⟨{ Name := "b", DataTypeOID := 99999 }, by decide, by decide⟩,
    (failure_atomicity (dbOf badSecondRow)
      (post [("Max-Content-Length", ["1048576"])] "select a from t") (connOf badSecondRow)
      badSecondRow ⟨by decide, by decide, rfl, "select a from t", rfl, rfl⟩).2
      ["a"] ["int4"] [[Value.int 1]] [] (by decide) (by decide)
      (by
        intro j h1 h2
        have hj : j = 1 := by
          simp only [List.length_singleton] at h2
          omega
        subst hj
        decide)⟩

/-- The assignment loop of lines 91-93, position by position. -/
theorem foldl_set_getElem (vals : List Value) :
    ∀ (start : Nat) (recs : List String) (i : Nat),
      ((vals.enumFrom start).foldl (fun recs iv => recs.set iv.1 (sprintV iv.2)) recs)[i]?
        = if start ≤ i ∧ i < start + vals.length ∧ i < recs.length
          then (vals[i - start]?).map sprintV else recs[i]? := by
  induction vals with
  | nil =>
    intro start recs i
    simp only [List.enumFrom_nil, List.foldl_nil, List.length_nil, Nat.add_zero]
    have h : ¬ (start ≤ i ∧ i < start ∧ i < recs.length) := by omega
    simp only [h, if_false]
  | cons v vs ih =>
    intro start recs i
    simp only [List.enumFrom_cons, List.foldl_cons, ih, List.length_set, List.length_cons,
      List.getElem?_set]
    by_cases h1 : start = i
    · subst h1
      by_cases h2 : start < recs.length
      · simp [h2]
      · simp [h2]
        omega
    · by_cases h2 : start + 1 ≤ i ∧ i < start + 1 + vs.length ∧ i < recs.length
      · have h3 : start ≤ i ∧ i < start + (vs.length + 1) ∧ i < recs.length := by omega
        obtain ⟨d, hd⟩ : ∃ d, i - start = d + 1 := ⟨i - start - 1, by omega⟩
        have hd2 : i - (start + 1) = d := by omega
        simp [h2, h3, hd, hd2]
      · have h3 : ¬ (start ≤ i ∧ i < start + (vs.length + 1) ∧ i < recs.length) := by omega
        simp [h1, h2, h3]

/-- C8, amended: at every column position the field handed to the csv writer
is the `%v` text of the row's value at that position; a null value gives the
text `<nil>`, a text value the text itself, an integer its decimal rendering. -/
theorem row_fields_default_text (nFields : Nat) (values : List Value) (i : Nat) (v : Value)
    (hi : i < nFields) (hv : values[i]? = some v) :
    (records nFields values)[i]? = some (sprintV v) ∧
    sprintV Value.null = "<nil>" ∧
    (∀ s : String, sprintV (Value.text s) = s) ∧
    (∀ n : Int, sprintV (Value.int n) = FormatInt n) := by
  refine ⟨?_, rfl, fun _ => rfl, fun _ => rfl⟩
  have hlt : i < values.length := by
    rcases Nat.lt_or_ge i values.length with h | h
    · exact h
    · rw [List.getElem?_eq_none h] at hv
      cases hv
  unfold records
  rw [List.enum, foldl_set_getElem]
  simp [hi, hlt, hv]

/-- C8, witness: the second column of a row of three values. -/
theorem row_fields_default_text_witness :
    (records 3 [Value.null, Value.int (-3), Value.text "a,b"])[1]?
      = some (sprintV (Value.int (-3))) ∧
    sprintV Value.null = "<nil>" ∧
    (∀ s : String, sprintV (Value.text s) = s) ∧
    (∀ n : Int, sprintV (Value.int n) = FormatInt n) :=
  row_fields_default_text 3 [Value.null, Value.int (-3), Value.text "a,b"] 1 (Value.int (-3))
    (by decide) (by decide)

/-- C8, counterexample: the field of a null value is `<nil>`, not the empty field. -/
theorem null_field_is_not_empty :
    sprintV Value.null ≠ "" ∧
    records 2 [Value.null, Value.int 7] = ["<nil>", "7"] ∧
    csvRecord (records 2 [Value.null, Value.int 7]) = "<nil>,7\n" := by
  decide

/-- C9: for a cursor that yields the rows `good` without a row error, the
checkpoint property holds of the handler after `conn.Query` for every ceiling
`c`, and of `query` for the ceiling the request resolves to: the rows pulled,
the rows whose records are in the body and the end value of `Content-Range`
are the same number `k`, which is the least `j ≥ 1` at which the encoded
length exceeds the ceiling, or the row count when there is none. -/
theorem checkpoint_semantics (db : Database) (req : Request) (conn : Conn) (rows : Rows)
    (colNames colTypes : List String) (good : List (List Value))
    (h : Succeeds db req conn rows)
    (hcols : columns conn rows.fields = some (colNames, colTypes))
    (hgood : rows.data = good.map some) :
    (∀ c : Int,
      Checkpoint (stream conn rows c ResponseWriter.new) colNames rows.fields.length good c) ∧
    Checkpoint (query db req) colNames rows.fields.length good (maxResponseSize req) := by
  refine ⟨fun c => stream_checkpoint conn rows c colNames colTypes good hcols hgood, ?_⟩
  rw [query_of_succeeds db req conn rows h]
  exact stream_checkpoint conn rows (maxResponseSize req) colNames colTypes good hcols hgood

/-- C9, witness: three rows of 12 bytes each after a column-name record of 4
bytes; under the ceiling 10 the loop stops after the first row. -/
theorem checkpoint_semantics_witness :
    ((∀ c : Int,
        Checkpoint (stream (connOf threeRows) threeRows c ResponseWriter.new) ["abc"]
          threeRows.fields.length
          [[Value.text "abcdefghijk"], [Value.text "lmnopqrstuv"], [Value.text "wxyzabcdefg"]]
          c) ∧
      Checkpoint (query (dbOf threeRows) (post [] "select abc from t")) ["abc"]
        threeRows.fields.length
        [[Value.text "abcdefghijk"], [Value.text "lmnopqrstuv"], [Value.text "wxyzabcdefg"]]
        (maxResponseSize (post [] "select abc from t"))) ∧
    (stream (connOf threeRows) threeRows 10 ResponseWriter.new).status = 206 ∧
    (stream (connOf threeRows) threeRows 10 ResponseWriter.new).pulled = 1 ∧
    headerGet (stream (connOf threeRows) threeRows 10 ResponseWriter.new).header "Content-Range"
      = "rows 0-1/*" ∧
    (stream (connOf threeRows) threeRows 10 ResponseWriter.new).body
      = utf8Bytes "abc\nabcdefghijk\n" :=
  ⟨checkpoint_semantics (dbOf threeRows) (post [] "select abc from t") (connOf threeRows)
      threeRows ["abc"] ["text"]
      [[Value.text "abcdefghijk"], [Value.text "lmnopqrstuv"], [Value.text "wxyzabcdefg"]]
      ⟨by decide, by decide, rfl, "select abc from t", rfl, rfl⟩ (by decide) (by decide),
    by decide, by decide, by decide, by decide⟩

/-- C10, evaluated on the code: a delete without returned rows under the
ceiling -9223372036854775808 (the clamped value of a header below the int
range) is answered with 206; `Rows-Affected` is put into the header map after
`WriteHeader(206)` has committed the head, so the response does not carry it.
The same statement answered with 200 carries `Rows-Affected: 3`. -/
theorem rows_affected_missing_on_partial :
    maxResponseSize (post [("Max-Content-Length", ["-9223372036854775809"])] "delete from t")
      = -9223372036854775808 ∧
    (query (dbOf deleteThree)
      (post [("Max-Content-Length", ["-9223372036854775809"])] "delete from t")).status = 206 ∧
    (query (dbOf deleteThree)
      (post [("Max-Content-Length", ["-9223372036854775809"])] "delete from t")).header
      = [("Content-Type", ["text/csv; coltypes=\n"]), ("Content-Range", ["rows 0-0/*"])] ∧
    (finalize (ResponseWriter.new.Add "Content-Type" "text/csv; coltypes=\n")
      (CsvWriter.new.Write []) 0 (-9223372036854775808) deleteThree.tag).header
      = [("Content-Type", ["text/csv; coltypes=\n"]), ("Content-Range", ["rows 0-0/*"]),
          ("Rows-Affected", ["3"])] ∧
    (query (dbOf deleteThree) (post [] "delete from t")).status = 200 ∧
    (query (dbOf deleteThree) (post [] "delete from t")).header
      = [("Content-Type", ["text/csv; coltypes=\n"]), ("Content-Range", ["rows 0-0/0"]),
          ("Rows-Affected", ["3"])] := by
  decide

end SqlPassthru
